import Mathlib

/-!
# Verification of the synpick Model Acquisition & Launch Subsystem

Shallow embedding of the core of the `synpick` CLI:

* `ClaudeLauncher.normalizeModelId` and `ClaudeLauncher.createClaudeEnvironment`
  (environment composition for the launched process),
* `ModelManager.fetchModels` / `ModelManager.fetchFromApi` (cache-first model
  acquisition with per-record validation tolerance),
* `ModelCache.isValid` (TTL-based cache validity, modelled from the spec since
  its body is not in the snapshot),
* the supervised-spawn protocols of `ClaudeCodeManager.spawnCommand`
  (modelled from the spec and its tests) and `ClaudeLauncher.getClaudeVersion`.

JavaScript `string | undefined` values are embedded as `Option String`;
JavaScript truthiness on such values (`x || y`, `if (x)`) treats both
`undefined` and the empty string as false, which the embedding mirrors
explicitly.
-/

namespace Synpick

/-- `s.startsWith p` on JavaScript strings, via character lists. -/
def strStartsWith (s p : String) : Bool :=
  p.data.isPrefixOf s.data

/-- JavaScript `a || b` for two `string | undefined` values:
`a` wins unless it is `undefined` or the empty string. -/
def jsOr (a b : Option String) : Option String :=
  match a with
  | some s => if s = "" then b else some s
  | none => b

/-- JavaScript `a || b` where the fallback `b` is a plain string. -/
def jsOrStr (a : Option String) (b : String) : String :=
  match a with
  | some s => if s = "" then b else s
  | none => b

/-! ## ClaudeLauncher: model-id normalization and environment composition -/

namespace ClaudeLauncher

/-- The fixed list of provider markers recognised by `normalizeModelId`
(`knownPrefixes` in the source). -/
def knownPrefixes : List String :=
  ["hf:", "openai:", "anthropic:", "claude:", "google:", "meta:"]

/-- `ClaudeLauncher.normalizeModelId`: `undefined`/empty ids yield `undefined`;
ids already carrying a recognised provider marker are returned unchanged;
every other id gets `"hf:"` prepended. -/
def normalizeModelId (modelId : Option String) : Option String :=
  match modelId with
  | none => none
  | some s =>
    if s = "" then none
    else if knownPrefixes.any (fun p => strStartsWith s p) then some s
    else some ("hf:" ++ s)

/-- The per-tier model selection (`options.tierModels`). -/
structure TierModels where
  default : Option String := none
  opus : Option String := none
  sonnet : Option String := none
  haiku : Option String := none
  subagent : Option String := none
  thinking : Option String := none
deriving DecidableEq

/-- The launch options consumed by `createClaudeEnvironment`. -/
structure LaunchOptions where
  model : Option String := none
  tierModels : TierModels := {}
  thinkingModel : Option String := none
  maxTokenSize : Option Nat := none
  systemPrompt : Option String := none
deriving DecidableEq

/-- `ClaudeLauncher.createClaudeEnvironment`, as the association list of
environment variables it sets, in source order. -/
def createClaudeEnvironment (options : LaunchOptions) : List (String × String) :=
  let tiers := options.tierModels
  let defaultModel := (normalizeModelId (jsOr tiers.default options.model)).getD ""
  let opusModel := jsOrStr (normalizeModelId tiers.opus) defaultModel
  let sonnetModel := jsOrStr (normalizeModelId tiers.sonnet) defaultModel
  let haikuModel := jsOrStr (normalizeModelId tiers.haiku) defaultModel
  let subagentModel := jsOrStr (normalizeModelId tiers.subagent) defaultModel
  let thinkingModel :=
    normalizeModelId (some ((jsOr tiers.thinking options.thinkingModel).getD ""))
  [("ANTHROPIC_BASE_URL", "https://api.synthetic.new/anthropic"),
   ("ANTHROPIC_DEFAULT_OPUS_MODEL", opusModel),
   ("ANTHROPIC_DEFAULT_SONNET_MODEL", sonnetModel),
   ("ANTHROPIC_DEFAULT_HAIKU_MODEL", haikuModel),
   ("ANTHROPIC_DEFAULT_MODEL", defaultModel),
   ("CLAUDE_CODE_SUBAGENT_MODEL", subagentModel)]
  ++ (match thinkingModel with
      | some t => if t = "" then [] else [("ANTHROPIC_THINKING_MODEL", t)]
      | none => [])
  ++ [("CLAUDE_CODE_MAX_TOKEN_SIZE", toString (options.maxTokenSize.getD 128000))]
  ++ (match options.systemPrompt with
      | some sp => if sp = "" then [] else [("CLAUDE_SYSTEM_PROMPT", sp)]
      | none => [])
  ++ [("CLAUDE_CODE_DISABLE_NONESSENTIAL_TRAFFIC", "1")]

end ClaudeLauncher

/-! ## Model catalog: raw JSON payloads and schema validation -/

/-- Raw JSON values as delivered by the catalog endpoint. -/
inductive Json where
  | null : Json
  | bool (b : Bool) : Json
  | num (n : Int) : Json
  | str (s : String) : Json
  | arr (xs : List Json) : Json
  | obj (fields : List (String × Json)) : Json

/-- `z.string()`: succeeds only on a JSON string. -/
def Json.asStr : Json → Option String
  | .str s => some s
  | _ => none

/-- `z.number()`: succeeds only on a JSON number. -/
def Json.asNum : Json → Option Int
  | .num n => some n
  | _ => none

/-- `z.boolean()`: succeeds only on a JSON boolean. -/
def Json.asBool : Json → Option Bool
  | .bool b => some b
  | _ => none

/-- `z.array(z.string())`: every element must be a string. -/
def Json.asStrList : Json → Option (List String)
  | .arr xs => xs.mapM Json.asStr
  | _ => none

/-- An optional schema field: absent is fine (`some none`), present values
must pass the type check, a present ill-typed value fails the whole entry. -/
def optField {α : Type} (fs : List (String × Json)) (k : String)
    (check : Json → Option α) : Option (Option α) :=
  match fs.lookup k with
  | none => some none
  | some v =>
    match check v with
    | some a => some (some a)
    | none => none

/-- A required schema field: must be present and pass the type check. -/
def reqField {α : Type} (fs : List (String × Json)) (k : String)
    (check : Json → Option α) : Option α :=
  (fs.lookup k).bind check

/-- A defaulted schema field (`z.string().default("model")`). -/
def defaultField {α : Type} (fs : List (String × Json)) (k : String)
    (check : Json → Option α) (d : α) : Option α :=
  match fs.lookup k with
  | none => some d
  | some v => check v

/-- The optional structured pricing block of a catalog entry. -/
structure PricingInfo where
  prompt : Option String
  completion : Option String
  image : Option String
  request : Option String
  input_cache_reads : Option String
  input_cache_writes : Option String
deriving DecidableEq

/-- Validates the `pricing` sub-object of the schema. -/
def Json.asPricing : Json → Option PricingInfo
  | .obj fs => do
    let prompt ← optField fs "prompt" Json.asStr
    let completion ← optField fs "completion" Json.asStr
    let image ← optField fs "image" Json.asStr
    let request ← optField fs "request" Json.asStr
    let icr ← optField fs "input_cache_reads" Json.asStr
    let icw ← optField fs "input_cache_writes" Json.asStr
    some ⟨prompt, completion, image, request, icr, icw⟩
  | _ => none

/-- Validates the `openrouter` sub-object (optional `slug`). -/
def Json.asOpenrouter : Json → Option (Option String)
  | .obj fs => optField fs "slug" Json.asStr
  | _ => none

/-- Validates one `datacenters` element (optional `country_code`). -/
def Json.asDatacenter : Json → Option (Option String)
  | .obj fs => optField fs "country_code" Json.asStr
  | _ => none

/-- Validates the `datacenters` array. -/
def Json.asDatacenters : Json → Option (List (Option String))
  | .arr xs => xs.mapM Json.asDatacenter
  | _ => none

/-- A validated catalog model record (`ModelInfoImpl`). -/
structure ModelInfoImpl where
  id : String
  object : String
  created : Option Int
  owned_by : Option String
  provider : Option String
  always_on : Option Bool
  hugging_face_id : Option String
  name : Option String
  input_modalities : Option (List String)
  output_modalities : Option (List String)
  context_length : Option Int
  max_output_length : Option Int
  pricing : Option PricingInfo
  quantization : Option String
  supported_sampling_parameters : Option (List String)
  supported_features : Option (List String)
  openrouter : Option (Option String)
  datacenters : Option (List (Option String))
deriving DecidableEq

/-- The `ModelInfoImpl` constructor: validates one raw entry against
`ModelInfoSchema` (Zod); `none` plays the role of the thrown validation
error. `id` is the only required field; `object` defaults to `"model"`;
every other field is optional but must be well-typed when present. -/
def parseModelInfo (j : Json) : Option ModelInfoImpl :=
  match j with
  | .obj fs => do
    let id ← reqField fs "id" Json.asStr
    let object ← defaultField fs "object" Json.asStr "model"
    let created ← optField fs "created" Json.asNum
    let owned_by ← optField fs "owned_by" Json.asStr
    let provider ← optField fs "provider" Json.asStr
    let always_on ← optField fs "always_on" Json.asBool
    let hugging_face_id ← optField fs "hugging_face_id" Json.asStr
    let name ← optField fs "name" Json.asStr
    let input_modalities ← optField fs "input_modalities" Json.asStrList
    let output_modalities ← optField fs "output_modalities" Json.asStrList
    let context_length ← optField fs "context_length" Json.asNum
    let max_output_length ← optField fs "max_output_length" Json.asNum
    let pricing ← optField fs "pricing" Json.asPricing
    let quantization ← optField fs "quantization" Json.asStr
    let ssp ← optField fs "supported_sampling_parameters" Json.asStrList
    let sf ← optField fs "supported_features" Json.asStrList
    let openrouter ← optField fs "openrouter" Json.asOpenrouter
    let datacenters ← optField fs "datacenters" Json.asDatacenters
    some ⟨id, object, created, owned_by, provider, always_on, hugging_face_id, name,
      input_modalities, output_modalities, context_length, max_output_length, pricing,
      quantization, ssp, sf, openrouter, datacenters⟩
  | _ => none

/-- The per-entry loop of `ModelManager.fetchFromApi`: each raw entry is fed
to the `ModelInfoImpl` constructor independently; a failing entry is skipped
and counted as one logged warning. Returns the accepted records in order,
paired with the warning count. -/
def parseLoop : List Json → List ModelInfoImpl × Nat
  | [] => ([], 0)
  | d :: ds =>
    let rest := parseLoop ds
    match parseModelInfo d with
    | some m => (m :: rest.1, rest.2)
    | none => (rest.1, rest.2 + 1)

/-- The typed errors thrown by `fetchFromApi` (`ApiError` in the source):
an HTTP error response, a network failure with no response, or another
request error. -/
inductive ApiError where
  | httpStatus (status : Nat) : ApiError
  | noResponse : ApiError
  | other (msg : String) : ApiError
deriving DecidableEq

/-- The raw HTTP response delivered to `fetchFromApi`
(`response.data.data || []` already extracted into `data`). -/
structure ApiResponse where
  status : Nat
  data : List Json

/-- `ModelManager.fetchFromApi`: the axios call either fails (left) or
delivers a status and raw entries; a 200 status yields the per-entry
validated records, any other status throws `ApiError`. -/
def fetchFromApi (resp : Except ApiError ApiResponse) :
    Except ApiError (List ModelInfoImpl) :=
  match resp with
  | .error e => .error e
  | .ok r =>
    if r.status = 200 then .ok (parseLoop r.data).1
    else .error (.httpStatus r.status)

/-- The world `ModelManager.fetchModels` runs against: cache validity and
contents, the configured API key, the outcome the network would deliver, and
whether `cache.save` would succeed (per its contract it returns a success
flag instead of throwing). -/
structure FetchEnv where
  cacheValid : Bool
  cacheModels : List ModelInfoImpl
  apiKey : String
  response : Except ApiError ApiResponse
  saveOk : Bool

instance exceptDecEq {ε α : Type} [DecidableEq ε] [DecidableEq α] :
    DecidableEq (Except ε α) := fun a b =>
  match a, b with
  | .error e, .error f =>
    if h : e = f then .isTrue (by rw [h])
    else .isFalse (by intro hc; cases hc; exact h rfl)
  | .ok x, .ok y =>
    if h : x = y then .isTrue (by rw [h])
    else .isFalse (by intro hc; cases hc; exact h rfl)
  | .error _, .ok _ => .isFalse (by intro hc; cases hc)
  | .ok _, .error _ => .isFalse (by intro hc; cases hc)

/-- Observable outcome of one `fetchModels` call: the returned (or thrown)
value, whether the network fetcher ran, whether `cache.save` was invoked, and
the cache contents afterwards. -/
structure FetchOutcome where
  result : Except ApiError (List ModelInfoImpl)
  networkCalled : Bool
  saveCalled : Bool
  cacheModelsAfter : List ModelInfoImpl
deriving DecidableEq

/-- `ModelManager.fetchModels`: cache-first unless forced, empty result on a
missing API key, otherwise network fetch followed by a best-effort save that
is only attempted when at least one record was received. -/
def fetchModels (env : FetchEnv) (forceRefresh : Bool) : FetchOutcome :=
  if !forceRefresh && env.cacheValid then
    { result := .ok env.cacheModels, networkCalled := false, saveCalled := false,
      cacheModelsAfter := env.cacheModels }
  else if env.apiKey = "" then
    { result := .ok [], networkCalled := false, saveCalled := false,
      cacheModelsAfter := env.cacheModels }
  else
    match fetchFromApi env.response with
    | .error e =>
      { result := .error e, networkCalled := true, saveCalled := false,
        cacheModelsAfter := env.cacheModels }
    | .ok models =>
      if 0 < models.length then
        { result := .ok models, networkCalled := true, saveCalled := true,
          cacheModelsAfter := if env.saveOk then models else env.cacheModels }
      else
        { result := .ok models, networkCalled := true, saveCalled := false,
          cacheModelsAfter := env.cacheModels }

/-- A concrete raw catalog response of five entries whose third lacks the
required `id` field. -/
def fiveEntries : List Json :=
  [Json.obj [("id", Json.str "anthropic:claude-3-5-sonnet-20241022"),
             ("name", Json.str "Claude 3.5 Sonnet")],
   Json.obj [("id", Json.str "openai:gpt-4"), ("context_length", Json.num 128000)],
   Json.obj [("name", Json.str "broken entry")],
   Json.obj [("id", Json.str "meta:llama-3"), ("provider", Json.str "meta")],
   Json.obj [("id", Json.str "google:gemini")]]

/-- A minimal valid record carrying only an id (all optional fields absent,
`object` defaulted). -/
def mkModel (id : String) : ModelInfoImpl :=
  { id := id, object := "model", created := none, owned_by := none, provider := none,
    always_on := none, hugging_face_id := none, name := none, input_modalities := none,
    output_modalities := none, context_length := none, max_output_length := none,
    pricing := none, quantization := none, supported_sampling_parameters := none,
    supported_features := none, openrouter := none, datacenters := none }

/-- The spec's cache-first scenario: a valid cache holding `[A, B]`, a
configured API key, and a network stub that would deliver `[C]`. -/
def envAB : FetchEnv :=
  { cacheValid := true, cacheModels := [mkModel "A", mkModel "B"], apiKey := "key",
    response := .ok ⟨200, [Json.obj [("id", Json.str "C")]]⟩, saveOk := true }

/-- `envAB` with a network stub delivering a successful but empty catalog. -/
def envEmptyNet : FetchEnv :=
  { envAB with response := .ok ⟨200, []⟩ }

/-- `envAB` with no API key configured. -/
def envNoKey : FetchEnv :=
  { envAB with apiKey := "" }

/-! ## ModelCache validity -/

/-- Modelled from the spec: `ModelCache.isValid` — the body of
`src/models/cache.ts` is not in the repository snapshot (only its contract
and tests are). Per the docs it stats the snapshot file, takes the file's
save time, and compares the elapsed wall-clock time against the configured
TTL; a missing file or any filesystem error (modelled as `none`) yields
`false`, and the function never throws (it is total). Times in ms. -/
def cacheIsValid (statMtime : Option Nat) (now ttlMs : Nat) : Bool :=
  match statMtime with
  | none => false
  | some savedAt => now - savedAt ≤ ttlMs

/-! ## Supervised auxiliary commands: spawnCommand and getClaudeVersion -/

/-- Events observable by a supervised auxiliary command run: stdout/stderr
data chunks, the child's close event with an exit code, a spawn error, or
expiry of the guard timer. -/
inductive SpawnEvent where
  | dataOut (s : String) : SpawnEvent
  | dataErr (s : String) : SpawnEvent
  | close (code : Int) : SpawnEvent
  | error : SpawnEvent
  | timeout : SpawnEvent
deriving DecidableEq

/-- Result resolved by `spawnCommand`: success flag, exit code (`none`
models the `null` code of the timeout path, `-1` the error path) and the
captured output. -/
structure CmdResult where
  success : Bool
  code : Option Int
  stdout : String
  stderr : String
deriving DecidableEq

/-- State of one `spawnCommand` run: accumulated output, the single
resolution guard and the resolved value, whether the guard timer is still
pending, and counters for resolutions, timer cancellations and kill signals
sent. -/
structure SpawnState where
  stdout : String
  stderr : String
  resolved : Bool
  result : Option CmdResult
  timerActive : Bool
  resolveCount : Nat
  clearCount : Nat
  killSignals : List String
deriving DecidableEq

/-- Modelled from the spec: `ClaudeCodeManager.spawnCommand` — its body
(`src/claude/manager.ts`) is not in the repository snapshot (only its unit
tests are). Per the spec's `Pending -> {Closed, Errored, TimedOut}` protocol
and those tests: the close and error handlers cancel the pending timer and
resolve at most once (close carries the exit code and captured output, error
a failure with code `-1`); the timer path force-kills the child with
`SIGKILL` and resolves a failure with a `null` exit code; a cancelled timer
never fires, and handlers on a settled run are no-ops. -/
def spawnStep (st : SpawnState) (e : SpawnEvent) : SpawnState :=
  match e with
  | .dataOut s => { st with stdout := st.stdout ++ s }
  | .dataErr s => { st with stderr := st.stderr ++ s }
  | .close code =>
    if st.resolved then st
    else
      { st with
        resolved := true
        timerActive := false
        clearCount := st.clearCount + 1
        resolveCount := st.resolveCount + 1
        result := some
          { success := decide (code = 0), code := some code,
            stdout := st.stdout, stderr := st.stderr } }
  | .error =>
    if st.resolved then st
    else
      { st with
        resolved := true
        timerActive := false
        clearCount := st.clearCount + 1
        resolveCount := st.resolveCount + 1
        result := some
          { success := false, code := some (-1),
            stdout := st.stdout, stderr := st.stderr } }
  | .timeout =>
    if st.timerActive = false then st
    else if st.resolved then { st with timerActive := false }
    else
      { st with
        resolved := true
        timerActive := false
        resolveCount := st.resolveCount + 1
        killSignals := st.killSignals ++ ["SIGKILL"]
        result := some
          { success := false, code := none,
            stdout := st.stdout, stderr := st.stderr } }

/-- The state of a `spawnCommand` run right after `spawn`: nothing resolved,
guard timer armed. -/
def spawnInit : SpawnState :=
  { stdout := "", stderr := "", resolved := false, result := none,
    timerActive := true, resolveCount := 0, clearCount := 0, killSignals := [] }

/-- A whole `spawnCommand` run over an event sequence. -/
def spawnRun (evs : List SpawnEvent) : SpawnState :=
  evs.foldl spawnStep spawnInit

/-- Default timeout for command spawning (`DEFAULT_COMMAND_TIMEOUT_MS`). -/
def DEFAULT_COMMAND_TIMEOUT_MS : Nat := 5000

/-- `options?.timeoutMs || 5000` in the launcher constructor: the configured
command timeout, defaulting to 5000 ms (JavaScript `||`, so an explicit 0
also falls back to the default). -/
def resolveTimeoutMs (timeoutMs : Option Nat) : Nat :=
  match timeoutMs with
  | none => DEFAULT_COMMAND_TIMEOUT_MS
  | some t => if t = 0 then DEFAULT_COMMAND_TIMEOUT_MS else t

/-- Maximal leading digit run of a character list, with the remainder. -/
def takeDigits : List Char → List Char × List Char
  | [] => ([], [])
  | c :: cs =>
    if c.isDigit then
      let (d, r) := takeDigits cs
      (c :: d, r)
    else ([], c :: cs)

/-- One attempt of the version pattern `\d+\.\d+\.\d+` anchored at the head
of the list, returning the matched characters. -/
def matchVersionAt (cs : List Char) : Option (List Char) :=
  let (d1, r1) := takeDigits cs
  if d1 = [] then none
  else
    match r1 with
    | '.' :: r2 =>
      let (d2, r3) := takeDigits r2
      if d2 = [] then none
      else
        match r3 with
        | '.' :: r4 =>
          let (d3, _) := takeDigits r4
          if d3 = [] then none
          else some (d1 ++ ['.'] ++ d2 ++ ['.'] ++ d3)
        | _ => none
    | _ => none

/-- Leftmost match of the version pattern, as regex search does. -/
def findVersion : List Char → Option (List Char)
  | [] => none
  | c :: cs =>
    match matchVersionAt (c :: cs) with
    | some v => some v
    | none => findVersion cs

/-- JavaScript `String.prototype.trim` on a character list. -/
def trimChars (cs : List Char) : List Char :=
  ((cs.dropWhile Char.isWhitespace).reverse.dropWhile Char.isWhitespace).reverse

/-- `output.trim().match(/(\d+\.\d+\.\d+)/)?.[1] ?? null` of
`getClaudeVersion`. -/
def parseVersionOutput (out : String) : Option String :=
  (findVersion (trimChars out.data)).map fun cs => String.mk cs

/-- Events observable by `ClaudeLauncher.getClaudeVersion`: stdout data,
close with an exit code, a spawn error, or expiry of the guard timer. -/
inductive GvEvent where
  | data (s : String) : GvEvent
  | close (code : Int) : GvEvent
  | error : GvEvent
  | timeout : GvEvent
deriving DecidableEq

/-- State of one `getClaudeVersion` run: the value resolved is
`some (some v)` for a parsed version, `some none` for the `null` outcomes.
`clearCount` counts `clearTimeout` calls (the source never makes one) and
`killCount` the `child.kill()` calls of the timeout branch. -/
structure GvState where
  output : String
  resolved : Bool
  result : Option (Option String)
  timerActive : Bool
  resolveCount : Nat
  clearCount : Nat
  killCount : Nat
deriving DecidableEq

/-- `ClaudeLauncher.getClaudeVersion`, event by event, from its source: the
data handler always appends to `output`; close with code 0 resolves the
parsed version, close with another code or an error resolves `null`; the
timeout callback — whose `setTimeout` handle the source discards and never
clears — kills the child and resolves `null` only when the `resolved` flag is
still unset. -/
def gvStep (st : GvState) (e : GvEvent) : GvState :=
  match e with
  | .data s => { st with output := st.output ++ s }
  | .close code =>
    if !st.resolved && code == 0 then
      { st with
        resolved := true
        resolveCount := st.resolveCount + 1
        result := some (parseVersionOutput st.output) }
    else if !st.resolved then
      { st with
        resolved := true
        resolveCount := st.resolveCount + 1
        result := some none }
    else st
  | .error =>
    if !st.resolved then
      { st with
        resolved := true
        resolveCount := st.resolveCount + 1
        result := some none }
    else st
  | .timeout =>
    if st.timerActive = false then st
    else if !st.resolved then
      { st with
        resolved := true
        timerActive := false
        resolveCount := st.resolveCount + 1
        killCount := st.killCount + 1
        result := some none }
    else { st with timerActive := false }

/-- The state of a `getClaudeVersion` run right after `spawn`. -/
def gvInit : GvState :=
  { output := "", resolved := false, result := none, timerActive := true,
    resolveCount := 0, clearCount := 0, killCount := 0 }

/-- A whole `getClaudeVersion` run over an event sequence. -/
def gvRun (evs : List GvEvent) : GvState :=
  evs.foldl gvStep gvInit

end Synpick

namespace Synpick

open ClaudeLauncher

/-- C1 — Tier fallback chain: with only the default tier set to a model id
`m1` (and no legacy model argument), the composed environment maps the opus,
sonnet, haiku, subagent and default model variables all to
`normalizeModelId m1`, and the thinking-model variable is absent. -/
theorem C1_tier_fallback_chain (m1 : String) (h : m1 ≠ "") :
    List.lookup "ANTHROPIC_DEFAULT_OPUS_MODEL"
      (createClaudeEnvironment { tierModels := { default := some m1 } }) =
        normalizeModelId (some m1) ∧
    List.lookup "ANTHROPIC_DEFAULT_SONNET_MODEL"
      (createClaudeEnvironment { tierModels := { default := some m1 } }) =
        normalizeModelId (some m1) ∧
    List.lookup "ANTHROPIC_DEFAULT_HAIKU_MODEL"
      (createClaudeEnvironment { tierModels := { default := some m1 } }) =
        normalizeModelId (some m1) ∧
    List.lookup "CLAUDE_CODE_SUBAGENT_MODEL"
      (createClaudeEnvironment { tierModels := { default := some m1 } }) =
        normalizeModelId (some m1) ∧
    List.lookup "ANTHROPIC_DEFAULT_MODEL"
      (createClaudeEnvironment { tierModels := { default := some m1 } }) =
        normalizeModelId (some m1) ∧
    List.lookup "ANTHROPIC_THINKING_MODEL"
      (createClaudeEnvironment { tierModels := { default := some m1 } }) = none := by
  cases hk : knownPrefixes.any (fun p => strStartsWith m1 p) <;>
    simp [createClaudeEnvironment, jsOr, jsOrStr, normalizeModelId, h, hk, List.lookup]

/-- Witness for C1 at the concrete model id `"m1"`. -/
theorem C1_tier_fallback_chain_witness :
    List.lookup "ANTHROPIC_DEFAULT_OPUS_MODEL"
      (createClaudeEnvironment { tierModels := { default := some "m1" } }) =
        normalizeModelId (some "m1") ∧
    List.lookup "ANTHROPIC_DEFAULT_SONNET_MODEL"
      (createClaudeEnvironment { tierModels := { default := some "m1" } }) =
        normalizeModelId (some "m1") ∧
    List.lookup "ANTHROPIC_DEFAULT_HAIKU_MODEL"
      (createClaudeEnvironment { tierModels := { default := some "m1" } }) =
        normalizeModelId (some "m1") ∧
    List.lookup "CLAUDE_CODE_SUBAGENT_MODEL"
      (createClaudeEnvironment { tierModels := { default := some "m1" } }) =
        normalizeModelId (some "m1") ∧
    List.lookup "ANTHROPIC_DEFAULT_MODEL"
      (createClaudeEnvironment { tierModels := { default := some "m1" } }) =
        normalizeModelId (some "m1") ∧
    List.lookup "ANTHROPIC_THINKING_MODEL"
      (createClaudeEnvironment { tierModels := { default := some "m1" } }) = none :=
  C1_tier_fallback_chain "m1" (by decide)

/-- Appending the `"hf:"` marker never yields the empty string. -/
theorem hf_append_ne_empty (x : String) : "hf:" ++ x ≠ "" := by
  intro h
  have h2 : ("hf:" ++ x).data = "".data := by rw [h]
  simp [String.data_append] at h2

/-- A string starting in the `"hf:"` marker is recognised by the known list. -/
theorem hf_append_known (x : String) :
    knownPrefixes.any (fun p => strStartsWith ("hf:" ++ x) p) = true := by
  have h1 : strStartsWith ("hf:" ++ x) "hf:" = true := by
    show ("hf:").data.isPrefixOf ("hf:" ++ x).data = true
    rw [String.data_append]
    show ['h', 'f', ':'].isPrefixOf ('h' :: 'f' :: ':' :: x.data) = true
    simp [List.isPrefixOf]
  simp only [knownPrefixes, List.any_cons]
  rw [h1]
  rfl

/-- The empty string carries no recognised provider marker. -/
theorem any_known_empty_false :
    knownPrefixes.any (fun p => strStartsWith "" p) = false := by decide

/-- Prepending the `"hf:"` marker changes the string. -/
theorem hf_append_ne_self (x : String) : "hf:" ++ x ≠ x := by
  intro h
  have h2 : ("hf:" ++ x).data = x.data := by rw [h]
  rw [String.data_append] at h2
  have h3 := congrArg List.length h2
  simp at h3
  omega

/-- C4 — Normalization is idempotent and provider-marker preserving:
`normalizeModelId` applied twice equals it applied once; an id that already
starts with one of the six known markers is returned unchanged; any other
non-empty id gets `"hf:"` prepended. -/
theorem C4_normalize_idempotent (x : String) :
    normalizeModelId (normalizeModelId (some x)) = normalizeModelId (some x) ∧
    (knownPrefixes.any (fun p => strStartsWith x p) = true →
      normalizeModelId (some x) = some x) ∧
    (x ≠ "" → knownPrefixes.any (fun p => strStartsWith x p) = false →
      normalizeModelId (some x) = some ("hf:" ++ x)) := by
  refine ⟨?_, ?_, ?_⟩
  · by_cases hx : x = ""
    · simp [normalizeModelId, hx]
    · cases hk : knownPrefixes.any (fun p => strStartsWith x p)
      · simp [normalizeModelId, hx, hk, hf_append_ne_empty, hf_append_known]
      · simp [normalizeModelId, hx, hk]
  · intro hk
    have hx : x ≠ "" := by
      intro hx
      rw [hx, any_known_empty_false] at hk
      exact Bool.false_ne_true hk
    simp [normalizeModelId, hx, hk]
  · intro hx hk
    simp [normalizeModelId, hx, hk]

/-- Witness for C4 at the spec's concrete ids `"openai:gpt-4"` and `"gpt-4"`. -/
theorem C4_normalize_idempotent_witness :
    normalizeModelId (normalizeModelId (some "gpt-4")) = normalizeModelId (some "gpt-4") ∧
    normalizeModelId (some "openai:gpt-4") = some "openai:gpt-4" ∧
    normalizeModelId (some "gpt-4") = some ("hf:" ++ "gpt-4") :=
  ⟨(C4_normalize_idempotent "gpt-4").1,
   (C4_normalize_idempotent "openai:gpt-4").2.1 (by decide),
   (C4_normalize_idempotent "gpt-4").2.2 (by decide) (by decide)⟩

/-- C10 — Implicit normalization behaviour: the recognised marker list is
exactly the six literals; a non-empty id is returned unchanged exactly when it
starts with one of them (so `"deepseek:deepseek-r1"` becomes the
doubly-qualified `"hf:deepseek:deepseek-r1"`); an empty or undefined id maps
to `undefined` (`none`), never to a prefixed string. -/
theorem C10_normalize_exact_prefix_set :
    knownPrefixes = ["hf:", "openai:", "anthropic:", "claude:", "google:", "meta:"] ∧
    (∀ x : String, x ≠ "" →
      (normalizeModelId (some x) = some x ↔
        knownPrefixes.any (fun p => strStartsWith x p) = true)) ∧
    normalizeModelId (some "deepseek:deepseek-r1") = some "hf:deepseek:deepseek-r1" ∧
    normalizeModelId (some "") = none ∧
    normalizeModelId none = none := by
  refine ⟨rfl, ?_, by decide, by decide, rfl⟩
  intro x hx
  constructor
  · intro heq
    by_contra hk
    have hk' : knownPrefixes.any (fun p => strStartsWith x p) = false :=
      Bool.eq_false_iff.mpr hk
    rw [show normalizeModelId (some x) = some ("hf:" ++ x) by
          simp [normalizeModelId, hx, hk']] at heq
    exact hf_append_ne_self x (Option.some.inj heq)
  · intro hk
    simp [normalizeModelId, hx, hk]

/-- Witness for C10: the deepseek id is double-qualified, and a known-marker
instance of the iff. -/
theorem C10_normalize_exact_prefix_set_witness :
    normalizeModelId (some "deepseek:deepseek-r1") = some "hf:deepseek:deepseek-r1" ∧
    normalizeModelId (some "openai:gpt-5") = some "openai:gpt-5" :=
  ⟨C10_normalize_exact_prefix_set.2.2.1,
   (C10_normalize_exact_prefix_set.2.1 "openai:gpt-5" (by decide)).mpr (by decide)⟩

/-- C6 counterexample — a tier selection with a model chosen (in the opus
slot) for which the sonnet tier variable is present but EMPTY in the composed
environment: choosing a model "anywhere in the selection" does not make every
tier variable non-empty. -/
theorem C6_counterexample :
    List.lookup "ANTHROPIC_DEFAULT_OPUS_MODEL"
      (createClaudeEnvironment { tierModels := { opus := some "x" } }) = some "hf:x" ∧
    List.lookup "ANTHROPIC_DEFAULT_SONNET_MODEL"
      (createClaudeEnvironment { tierModels := { opus := some "x" } }) = some "" ∧
    List.lookup "ANTHROPIC_DEFAULT_MODEL"
      (createClaudeEnvironment { tierModels := { opus := some "x" } }) = some "" := by
  decide

/-- C6 (amended) — Non-empty tier invariant, restricted to the fallback
source: when the default slot of the tier selection (or the legacy model
argument) carries a non-empty model id, every tier-model variable of the
composed environment is present and non-empty. -/
theorem C6_nonempty_tier_vars (opts : LaunchOptions)
    (h : (jsOr opts.tierModels.default opts.model).getD "" ≠ "") :
    ∀ k ∈ ["ANTHROPIC_DEFAULT_OPUS_MODEL", "ANTHROPIC_DEFAULT_SONNET_MODEL",
           "ANTHROPIC_DEFAULT_HAIKU_MODEL", "ANTHROPIC_DEFAULT_MODEL",
           "CLAUDE_CODE_SUBAGENT_MODEL"],
      ∃ v, List.lookup k (createClaudeEnvironment opts) = some v ∧ v ≠ "" := by
  have hdef : (normalizeModelId (jsOr opts.tierModels.default opts.model)).getD "" ≠ "" := by
    rcases hc : jsOr opts.tierModels.default opts.model with _ | s
    · rw [hc] at h
      exact absurd rfl h
    · rw [hc] at h
      have hs : s ≠ "" := h
      cases hk : knownPrefixes.any (fun p => strStartsWith s p) <;>
        simp [normalizeModelId, hs, hk, hf_append_ne_empty]
  have htier : ∀ a : Option String, jsOrStr (normalizeModelId a)
      ((normalizeModelId (jsOr opts.tierModels.default opts.model)).getD "") ≠ "" := by
    intro a
    rcases ha : normalizeModelId a with _ | s
    · exact hdef
    · by_cases hs : s = "" <;> simp [jsOrStr, hs, hdef]
  have lkOpus : List.lookup "ANTHROPIC_DEFAULT_OPUS_MODEL" (createClaudeEnvironment opts) =
      some (jsOrStr (normalizeModelId opts.tierModels.opus)
        ((normalizeModelId (jsOr opts.tierModels.default opts.model)).getD "")) := by
    simp [createClaudeEnvironment, List.lookup]
  have lkSonnet : List.lookup "ANTHROPIC_DEFAULT_SONNET_MODEL" (createClaudeEnvironment opts) =
      some (jsOrStr (normalizeModelId opts.tierModels.sonnet)
        ((normalizeModelId (jsOr opts.tierModels.default opts.model)).getD "")) := by
    simp [createClaudeEnvironment, List.lookup]
  have lkHaiku : List.lookup "ANTHROPIC_DEFAULT_HAIKU_MODEL" (createClaudeEnvironment opts) =
      some (jsOrStr (normalizeModelId opts.tierModels.haiku)
        ((normalizeModelId (jsOr opts.tierModels.default opts.model)).getD "")) := by
    simp [createClaudeEnvironment, List.lookup]
  have lkDefault : List.lookup "ANTHROPIC_DEFAULT_MODEL" (createClaudeEnvironment opts) =
      some ((normalizeModelId (jsOr opts.tierModels.default opts.model)).getD "") := by
    simp [createClaudeEnvironment, List.lookup]
  have lkSub : List.lookup "CLAUDE_CODE_SUBAGENT_MODEL" (createClaudeEnvironment opts) =
      some (jsOrStr (normalizeModelId opts.tierModels.subagent)
        ((normalizeModelId (jsOr opts.tierModels.default opts.model)).getD "")) := by
    simp [createClaudeEnvironment, List.lookup]
  intro k hk
  simp only [List.mem_cons, List.not_mem_nil, or_false] at hk
  rcases hk with rfl | rfl | rfl | rfl | rfl
  · exact ⟨_, lkOpus, htier _⟩
  · exact ⟨_, lkSonnet, htier _⟩
  · exact ⟨_, lkHaiku, htier _⟩
  · exact ⟨_, lkDefault, hdef⟩
  · exact ⟨_, lkSub, htier _⟩

/-- Witness for C6 (amended) at a selection with only the default slot set. -/
theorem C6_nonempty_tier_vars_witness :
    ∃ v, List.lookup "ANTHROPIC_DEFAULT_SONNET_MODEL"
        (createClaudeEnvironment { tierModels := { default := some "m1" } }) =
          some v ∧ v ≠ "" :=
  C6_nonempty_tier_vars { tierModels := { default := some "m1" } } (by decide)
    "ANTHROPIC_DEFAULT_SONNET_MODEL" (by decide)

/-- The per-entry loop keeps exactly the entries the validator accepts,
in order. -/
theorem parseLoop_records (es : List Json) :
    (parseLoop es).1 = es.filterMap parseModelInfo := by
  induction es with
  | nil => rfl
  | cons d ds ih =>
    cases h : parseModelInfo d <;> simp [parseLoop, List.filterMap_cons, h, ih]

/-- The per-entry loop logs one warning per rejected entry. -/
theorem parseLoop_warnings (es : List Json) :
    (parseLoop es).2 = es.countP (fun e => (parseModelInfo e).isNone) := by
  induction es with
  | nil => rfl
  | cons d ds ih =>
    cases h : parseModelInfo d <;> simp [parseLoop, List.countP_cons, h, ih]

/-- C2 — Partial-failure tolerance of the catalog fetch: on any 200 response
the fetch never throws and returns exactly the independently validated
entries, with one warning per malformed entry; whenever at least one entry is
valid the result is non-empty, so a single bad entry can never empty the
result or abort the fetch. -/
theorem C2_partial_failure_tolerance (es : List Json) :
    fetchFromApi (.ok ⟨200, es⟩) = .ok (es.filterMap parseModelInfo) ∧
    (parseLoop es).2 = es.countP (fun e => (parseModelInfo e).isNone) ∧
    ((∃ e ∈ es, (parseModelInfo e).isSome) → es.filterMap parseModelInfo ≠ []) := by
  refine ⟨?_, parseLoop_warnings es, ?_⟩
  · simp [fetchFromApi, parseLoop_records]
  · rintro ⟨e, he, hsome⟩ hnil
    rw [List.filterMap_eq_nil_iff] at hnil
    rw [hnil e he] at hsome
    simp at hsome

/-- Witness for C2 at the concrete five-entry response with a malformed third
entry: four records, one warning, no abort. -/
theorem C2_partial_failure_tolerance_witness :
    fetchFromApi (.ok ⟨200, fiveEntries⟩) = .ok (fiveEntries.filterMap parseModelInfo) ∧
    fiveEntries.filterMap parseModelInfo ≠ [] ∧
    (fiveEntries.filterMap parseModelInfo).length = 4 ∧
    (parseLoop fiveEntries).2 = 1 :=
  ⟨(C2_partial_failure_tolerance fiveEntries).1,
   (C2_partial_failure_tolerance fiveEntries).2.2 (by decide),
   by decide, by decide⟩

/-- C3 counterexample — two force-refresh calls violating the claim: with a
successful but empty network result the cache is NOT overwritten with that
result (it still holds `[A, B]`), and with an empty API key the network
fetcher is never invoked and `[]` rather than the stubbed network result is
returned. -/
theorem C3_counterexample :
    ((fetchModels envEmptyNet true).result = .ok [] ∧
     (fetchModels envEmptyNet true).cacheModelsAfter = [mkModel "A", mkModel "B"] ∧
     (fetchModels envEmptyNet true).cacheModelsAfter ≠ []) ∧
    ((fetchModels envNoKey true).networkCalled = false ∧
     (fetchModels envNoKey true).result = .ok []) := by decide

/-- C3 (amended) — Cache-first precedence: a non-forced call with a valid
cache returns the cached records without touching the network or the cache;
a forced call with a configured API key skips the cache check, invokes the
network and returns its result, and overwrites the cache with that result
whenever it is non-empty (and the save succeeds). -/
theorem C3_cache_first_precedence (env : FetchEnv) :
    (env.cacheValid = true →
      fetchModels env false =
        { result := .ok env.cacheModels, networkCalled := false,
          saveCalled := false, cacheModelsAfter := env.cacheModels }) ∧
    (env.apiKey ≠ "" →
      (fetchModels env true).networkCalled = true ∧
      (fetchModels env true).result = fetchFromApi env.response ∧
      (∀ ms, fetchFromApi env.response = .ok ms → ms ≠ [] → env.saveOk = true →
        (fetchModels env true).cacheModelsAfter = ms)) := by
  constructor
  · intro hv
    simp [fetchModels, hv]
  · intro hkey
    have h1 : (fetchModels env true).networkCalled = true ∧
        (fetchModels env true).result = fetchFromApi env.response := by
      rcases hr : fetchFromApi env.response with e | ms
      · simp [fetchModels, hkey, hr]
      · by_cases hms : 0 < ms.length <;> simp [fetchModels, hkey, hr, hms]
    refine ⟨h1.1, h1.2, ?_⟩
    intro ms hr hms hsave
    have hlen : 0 < ms.length := List.length_pos.mpr hms
    simp [fetchModels, hkey, hr, hlen, hsave]

/-- Witness for C3 (amended) at the spec's scenario: cache `[A, B]`, network
stub `[C]`; the non-forced call returns `[A, B]` without network, the forced
call returns `[C]` and overwrites the cache with `[C]`. -/
theorem C3_cache_first_precedence_witness :
    fetchModels envAB false =
      { result := .ok [mkModel "A", mkModel "B"], networkCalled := false,
        saveCalled := false, cacheModelsAfter := [mkModel "A", mkModel "B"] } ∧
    (fetchModels envAB true).result = .ok [mkModel "C"] ∧
    (fetchModels envAB true).cacheModelsAfter = [mkModel "C"] := by
  refine ⟨(C3_cache_first_precedence envAB).1 (by decide), ?_, ?_⟩
  · rw [((C3_cache_first_precedence envAB).2 (by decide)).2.1]
    decide
  · exact ((C3_cache_first_precedence envAB).2 (by decide)).2.2 [mkModel "C"]
      (by decide) (by decide) (by decide)

/-- C9 counterexample — a successful network fetch (HTTP 200, zero records)
after which `cache.save` is NOT invoked: the snapshot is not written after
every successful fetch. -/
theorem C9_counterexample :
    (fetchModels envEmptyNet true).result = .ok [] ∧
    (fetchModels envEmptyNet true).saveCalled = false := by decide

/-- C9 (amended) — Best-effort persist: after every successful network fetch
that yields at least one record, `cache.save` is invoked and the in-memory
records are returned to the caller regardless of whether the save succeeds
(the statement holds for every value of `env.saveOk`). -/
theorem C9_best_effort_persist (env : FetchEnv) (force : Bool)
    (ms : List ModelInfoImpl)
    (hmiss : force = true ∨ env.cacheValid = false)
    (hkey : env.apiKey ≠ "")
    (hr : fetchFromApi env.response = .ok ms) (hms : ms ≠ []) :
    (fetchModels env force).saveCalled = true ∧
    (fetchModels env force).result = .ok ms := by
  have hlen : 0 < ms.length := List.length_pos.mpr hms
  have hcache : (!force && env.cacheValid) = false := by
    rcases hmiss with h | h <;> simp [h]
  simp [fetchModels, hcache, hkey, hr, hlen]

/-- Witness for C9 (amended): the `[C]` fetch both with a succeeding and with
a failing save — the records are returned either way and the save is invoked
either way. -/
theorem C9_best_effort_persist_witness :
    ((fetchModels envAB true).saveCalled = true ∧
     (fetchModels envAB true).result = .ok [mkModel "C"]) ∧
    ((fetchModels { envAB with saveOk := false } true).saveCalled = true ∧
     (fetchModels { envAB with saveOk := false } true).result = .ok [mkModel "C"]) :=
  ⟨C9_best_effort_persist envAB true [mkModel "C"] (Or.inl rfl) (by decide)
     (by decide) (by decide),
   C9_best_effort_persist { envAB with saveOk := false } true [mkModel "C"]
     (Or.inl rfl) (by decide) (by decide) (by decide)⟩

/-- C7 — Cache validity predicate: `isValid` is true iff the snapshot file
exists (stat succeeded) and the elapsed wall-clock time since it was saved is
at most the TTL; one second inside the TTL it is true, one second past it is
false; a stat failure yields `false` (the function is total, so it never
throws). -/
theorem C7_cache_validity (statMtime : Option Nat) (now ttlMs : Nat) :
    (cacheIsValid statMtime now ttlMs = true ↔
      ∃ savedAt, statMtime = some savedAt ∧ now - savedAt ≤ ttlMs) ∧
    (∀ T, 1000 ≤ ttlMs → cacheIsValid (some T) (T + ttlMs - 1000) ttlMs = true) ∧
    (∀ T, cacheIsValid (some T) (T + ttlMs + 1000) ttlMs = false) ∧
    cacheIsValid none now ttlMs = false := by
  refine ⟨?_, ?_, ?_, rfl⟩
  · cases statMtime with
    | none => simp [cacheIsValid]
    | some savedAt => simp [cacheIsValid]
  · intro T ht
    simp only [cacheIsValid, decide_eq_true_eq]
    omega
  · intro T
    simp only [cacheIsValid, decide_eq_false_iff_not]
    omega

/-- Witness for C7 with a 1-hour TTL and a snapshot saved at `T = 5000` ms:
valid one second before expiry, invalid one second after. -/
theorem C7_cache_validity_witness :
    cacheIsValid (some 5000) (5000 + 3600000 - 1000) 3600000 = true ∧
    cacheIsValid (some 5000) (5000 + 3600000 + 1000) 3600000 = false :=
  ⟨(C7_cache_validity (some 5000) 0 3600000).2.1 5000 (by decide),
   (C7_cache_validity (some 5000) 0 3600000).2.2.1 5000⟩

/-- A settled `spawnCommand` run (resolved, timer cancelled) keeps every
promise-observable field fixed under any further event (only the output
accumulators, irrelevant after resolution, may still grow). -/
theorem spawnStep_settled (st : SpawnState) (e : SpawnEvent)
    (h1 : st.resolved = true) (h2 : st.timerActive = false) :
    (spawnStep st e).result = st.result ∧
    (spawnStep st e).resolved = true ∧
    (spawnStep st e).timerActive = false ∧
    (spawnStep st e).resolveCount = st.resolveCount ∧
    (spawnStep st e).clearCount = st.clearCount ∧
    (spawnStep st e).killSignals = st.killSignals := by
  cases e <;> simp [spawnStep, h1, h2]

/-- A settled `spawnCommand` run stays observably fixed under any event
sequence. -/
theorem spawnFold_settled (evs : List SpawnEvent) (st : SpawnState)
    (h1 : st.resolved = true) (h2 : st.timerActive = false) :
    (evs.foldl spawnStep st).result = st.result ∧
    (evs.foldl spawnStep st).resolved = true ∧
    (evs.foldl spawnStep st).timerActive = false ∧
    (evs.foldl spawnStep st).resolveCount = st.resolveCount ∧
    (evs.foldl spawnStep st).clearCount = st.clearCount ∧
    (evs.foldl spawnStep st).killSignals = st.killSignals := by
  induction evs generalizing st with
  | nil => exact ⟨rfl, h1, h2, rfl, rfl, rfl⟩
  | cons e es ih =>
    rw [List.foldl_cons]
    obtain ⟨q1, q2, q3, q4, q5, q6⟩ := spawnStep_settled st e h1 h2
    obtain ⟨w1, w2, w3, w4, w5, w6⟩ := ih (spawnStep st e) q2 q3
    exact ⟨w1.trans q1, w2, w3, w4.trans q4, w5.trans q5, w6.trans q6⟩

/-- Run invariant of the `spawnCommand` protocol: before resolution nothing
observable has happened and the timer is still armed; at resolution the timer
is down and exactly one resolution was performed. -/
def SpawnInv (st : SpawnState) : Prop :=
  (st.resolved = false →
    st.resolveCount = 0 ∧ st.clearCount = 0 ∧ st.killSignals = [] ∧
    st.result = none ∧ st.timerActive = true) ∧
  (st.resolved = true → st.timerActive = false ∧ st.resolveCount = 1)

/-- Each protocol step preserves the run invariant. -/
theorem spawnStep_inv (st : SpawnState) (e : SpawnEvent) (h : SpawnInv st) :
    SpawnInv (spawnStep st e) := by
  obtain ⟨hunres, hres⟩ := h
  cases e with
  | dataOut s =>
    exact ⟨fun hr => hunres hr, fun hr => hres hr⟩
  | dataErr s =>
    exact ⟨fun hr => hunres hr, fun hr => hres hr⟩
  | close code =>
    cases hr : st.resolved with
    | true =>
      simp only [spawnStep, hr, if_true]
      exact ⟨hunres, hres⟩
    | false =>
      obtain ⟨h1, h2, h3, h4, h5⟩ := hunres hr
      simp [spawnStep, hr, SpawnInv, h1, h2]
  | error =>
    cases hr : st.resolved with
    | true =>
      simp only [spawnStep, hr, if_true]
      exact ⟨hunres, hres⟩
    | false =>
      obtain ⟨h1, h2, h3, h4, h5⟩ := hunres hr
      simp [spawnStep, hr, SpawnInv, h1, h2]
  | timeout =>
    cases ht : st.timerActive with
    | false =>
      simp only [spawnStep, ht, if_true]
      exact ⟨hunres, hres⟩
    | true =>
      cases hr : st.resolved with
      | true =>
        exact absurd (hres hr).1 (by rw [ht]; simp)
      | false =>
        obtain ⟨h1, h2, h3, h4, h5⟩ := hunres hr
        simp [spawnStep, ht, hr, SpawnInv, h1, h2, h3]

/-- The run invariant holds after any event sequence from the initial
state. -/
theorem spawnRun_inv (evs : List SpawnEvent) : SpawnInv (spawnRun evs) := by
  have hgen : forall (l : List SpawnEvent) (st : SpawnState), SpawnInv st ->
      SpawnInv (l.foldl spawnStep st) := by
    intro l
    induction l with
    | nil => exact fun st h => h
    | cons e es ih => exact fun st h => ih (spawnStep st e) (spawnStep_inv st e h)
  refine hgen evs spawnInit ⟨fun _ => ⟨rfl, rfl, rfl, rfl, rfl⟩, fun hc => ?_⟩
  simp [spawnInit] at hc

/-- C5 counterexample — `ClaudeLauncher.getClaudeVersion` (a supervised
auxiliary command in the source) resolves on the close path while its
timeout timer is still pending: zero `clearTimeout` calls were made on that
exit path, refuting "the timeout timer handle is cancelled on every exit
path" for every supervised auxiliary command. -/
theorem C5_counterexample :
    (gvRun [GvEvent.data "claude 2.0.76", GvEvent.close 0]).resolved = true ∧
    (gvRun [GvEvent.data "claude 2.0.76", GvEvent.close 0]).result =
      some (some "2.0.76") ∧
    (gvRun [GvEvent.data "claude 2.0.76", GvEvent.close 0]).clearCount = 0 ∧
    (gvRun [GvEvent.data "claude 2.0.76", GvEvent.close 0]).timerActive = true := by
  decide

/-- `getClaudeVersion` events never unset the resolved flag. -/
theorem gvStep_resolved_mono (st : GvState) (e : GvEvent)
    (h : st.resolved = true) : (gvStep st e).resolved = true := by
  cases e with
  | data s => exact h
  | close code => simp [gvStep, h]
  | error => simp [gvStep, h]
  | timeout => cases ht : st.timerActive <;> simp [gvStep, h, ht]

/-- After resolution, a `getClaudeVersion` step sends no kill signal. -/
theorem gvStep_killCount_settled (st : GvState) (e : GvEvent)
    (h : st.resolved = true) : (gvStep st e).killCount = st.killCount := by
  cases e with
  | data s => rfl
  | close code => simp [gvStep, h]
  | error => simp [gvStep, h]
  | timeout => cases ht : st.timerActive <;> simp [gvStep, h, ht]

/-- After resolution, a `getClaudeVersion` step resolves nothing further. -/
theorem gvStep_resolveCount_settled (st : GvState) (e : GvEvent)
    (h : st.resolved = true) : (gvStep st e).resolveCount = st.resolveCount := by
  cases e with
  | data s => rfl
  | close code => simp [gvStep, h]
  | error => simp [gvStep, h]
  | timeout => cases ht : st.timerActive <;> simp [gvStep, h, ht]

/-- Once `getClaudeVersion` has resolved, no later event sends a kill
signal. -/
theorem gvFold_no_kill (evs : List GvEvent) (st : GvState)
    (h : st.resolved = true) :
    (evs.foldl gvStep st).killCount = st.killCount := by
  induction evs generalizing st with
  | nil => rfl
  | cons e es ih =>
    rw [List.foldl_cons]
    rw [ih (gvStep st e) (gvStep_resolved_mono st e h)]
    exact gvStep_killCount_settled st e h

/-- Resolution-count invariant of a `getClaudeVersion` run. -/
def GvInv (st : GvState) : Prop :=
  (st.resolved = false ∧ st.resolveCount = 0) ∨
  (st.resolved = true ∧ st.resolveCount = 1)

/-- Each `getClaudeVersion` step preserves the resolution-count
invariant. -/
theorem gvStep_inv (st : GvState) (e : GvEvent) (h : GvInv st) :
    GvInv (gvStep st e) := by
  rcases h with ⟨h1, h2⟩ | ⟨h1, h2⟩
  · cases e with
    | data s => exact Or.inl ⟨h1, h2⟩
    | close code =>
      cases hc : ((code : Int) == 0) <;>
        exact Or.inr (by constructor <;> simp [gvStep, h1, h2, hc])
    | error =>
      exact Or.inr (by constructor <;> simp [gvStep, h1, h2])
    | timeout =>
      cases ht : st.timerActive with
      | false =>
        refine Or.inl ⟨?_, ?_⟩ <;> simp [gvStep, ht, h1, h2]
      | true =>
        exact Or.inr (by constructor <;> simp [gvStep, ht, h1, h2])
  · exact Or.inr ⟨gvStep_resolved_mono st e h1,
      (gvStep_resolveCount_settled st e h1).trans h2⟩

/-- The resolution-count invariant holds for every `getClaudeVersion`
run. -/
theorem gvRun_inv (evs : List GvEvent) : GvInv (gvRun evs) := by
  have hgen : forall (l : List GvEvent) (st : GvState), GvInv st ->
      GvInv (l.foldl gvStep st) := by
    intro l
    induction l with
    | nil => exact fun st h => h
    | cons e es ih => exact fun st h => ih (gvStep st e) (gvStep_inv st e h)
  exact hgen evs gvInit (Or.inl ⟨rfl, rfl⟩)

/-- C5 (amended) — Single resolution, with timer cleanup in `spawnCommand`
only: every `spawnCommand` run resolves at most once with the timer down at
resolution, a settled run keeps its result and counters under later events,
and a run whose first event is close or error cancels the timer exactly once
and never sends a kill signal; `getClaudeVersion` also resolves at most once
and sends no kill signal once a close event has settled it, but it does NOT
cancel its timer on those exit paths (see the counterexample). -/
theorem C5_single_resolution (evs : List SpawnEvent) (gevs : List GvEvent) :
    (spawnRun evs).resolveCount ≤ 1 ∧
    ((spawnRun evs).resolved = true → (spawnRun evs).timerActive = false) ∧
    (∀ e, (spawnRun evs).resolved = true →
      (spawnRun (evs ++ [e])).result = (spawnRun evs).result ∧
      (spawnRun (evs ++ [e])).resolveCount = (spawnRun evs).resolveCount ∧
      (spawnRun (evs ++ [e])).killSignals = (spawnRun evs).killSignals) ∧
    (∀ c evs2, (spawnRun (SpawnEvent.close c :: evs2)).killSignals = [] ∧
               (spawnRun (SpawnEvent.close c :: evs2)).clearCount = 1) ∧
    (∀ evs2, (spawnRun (SpawnEvent.error :: evs2)).killSignals = [] ∧
             (spawnRun (SpawnEvent.error :: evs2)).clearCount = 1) ∧
    (gvRun gevs).resolveCount ≤ 1 ∧
    (∀ c gevs2, (gvRun (GvEvent.close c :: gevs2)).killCount = 0) := by
  obtain ⟨hunres, hres⟩ := spawnRun_inv evs
  refine ⟨?_, fun hr => (hres hr).1, ?_, ?_, ?_, ?_, ?_⟩
  · cases hr : (spawnRun evs).resolved with
    | true => exact le_of_eq (hres hr).2
    | false =>
      rw [(hunres hr).1]
      omega
  · intro e hr
    show ((evs ++ [e]).foldl spawnStep spawnInit).result = _ ∧
      ((evs ++ [e]).foldl spawnStep spawnInit).resolveCount = _ ∧
      ((evs ++ [e]).foldl spawnStep spawnInit).killSignals = _
    rw [List.foldl_append]
    obtain ⟨w1, _, _, w4, _, w6⟩ :=
      spawnFold_settled [e] (spawnRun evs) hr ((hres hr).1)
    exact ⟨w1, w4, w6⟩
  · intro c evs2
    have h1 : (spawnStep spawnInit (SpawnEvent.close c)).resolved = true := by
      simp [spawnStep, spawnInit]
    have h2 : (spawnStep spawnInit (SpawnEvent.close c)).timerActive = false := by
      simp [spawnStep, spawnInit]
    obtain ⟨_, _, _, _, w5, w6⟩ :=
      spawnFold_settled evs2 (spawnStep spawnInit (SpawnEvent.close c)) h1 h2
    refine ⟨?_, ?_⟩
    · show ((SpawnEvent.close c :: evs2).foldl spawnStep spawnInit).killSignals = []
      rw [List.foldl_cons, w6]
      simp [spawnStep, spawnInit]
    · show ((SpawnEvent.close c :: evs2).foldl spawnStep spawnInit).clearCount = 1
      rw [List.foldl_cons, w5]
      simp [spawnStep, spawnInit]
  · intro evs2
    have h1 : (spawnStep spawnInit SpawnEvent.error).resolved = true := by
      simp [spawnStep, spawnInit]
    have h2 : (spawnStep spawnInit SpawnEvent.error).timerActive = false := by
      simp [spawnStep, spawnInit]
    obtain ⟨_, _, _, _, w5, w6⟩ :=
      spawnFold_settled evs2 (spawnStep spawnInit SpawnEvent.error) h1 h2
    refine ⟨?_, ?_⟩
    · show ((SpawnEvent.error :: evs2).foldl spawnStep spawnInit).killSignals = []
      rw [List.foldl_cons, w6]
      simp [spawnStep, spawnInit]
    · show ((SpawnEvent.error :: evs2).foldl spawnStep spawnInit).clearCount = 1
      rw [List.foldl_cons, w5]
      simp [spawnStep, spawnInit]
  · rcases gvRun_inv gevs with ⟨_, h2⟩ | ⟨_, h2⟩ <;> simp [h2]
  · intro c gevs2
    have h1 : (gvStep gvInit (GvEvent.close c)).resolved = true := by
      cases hc : ((c : Int) == 0) <;> simp [gvStep, gvInit, hc]
    have h0 : (gvStep gvInit (GvEvent.close c)).killCount = 0 := by
      cases hc : ((c : Int) == 0) <;> simp [gvStep, gvInit, hc]
    show ((GvEvent.close c :: gevs2).foldl gvStep gvInit).killCount = 0
    rw [List.foldl_cons, gvFold_no_kill gevs2 (gvStep gvInit (GvEvent.close c)) h1]
    exact h0

/-- Witness for C5 at concrete runs: a close followed by a (manually fired)
timeout leaves the settled `spawnCommand` observables unchanged with no kill
signal and one timer cancellation, and a `getClaudeVersion` close followed by
the timer firing sends no kill either. -/
theorem C5_single_resolution_witness :
    (spawnRun ([SpawnEvent.close 0] ++ [SpawnEvent.timeout])).result =
      (spawnRun [SpawnEvent.close 0]).result ∧
    (spawnRun ([SpawnEvent.close 0] ++ [SpawnEvent.timeout])).killSignals =
      (spawnRun [SpawnEvent.close 0]).killSignals ∧
    (spawnRun [SpawnEvent.close 0]).killSignals = [] ∧
    (spawnRun [SpawnEvent.close 0]).clearCount = 1 ∧
    (gvRun [GvEvent.close 0, GvEvent.timeout]).killCount = 0 :=
  ⟨((C5_single_resolution [SpawnEvent.close 0] []).2.2.1 SpawnEvent.timeout
      (by decide)).1,
   ((C5_single_resolution [SpawnEvent.close 0] []).2.2.1 SpawnEvent.timeout
      (by decide)).2.2,
   ((C5_single_resolution [] []).2.2.2.1 0 []).1,
   ((C5_single_resolution [] []).2.2.2.1 0 []).2,
   (C5_single_resolution [] []).2.2.2.2.2.2 0 [GvEvent.timeout]⟩

/-- C8 — Timeout transition of `spawnCommand`: when the guard timer elapses
before any close or error event, the child is force-killed with `SIGKILL` and
the run resolves a failure with a `null` exit code; the timer duration is
5000 ms by default and configurable. -/
theorem C8_timeout_transition (evs : List SpawnEvent) :
    (spawnRun (SpawnEvent.timeout :: evs)).result =
      some { success := false, code := none, stdout := "", stderr := "" } ∧
    (spawnRun (SpawnEvent.timeout :: evs)).killSignals = ["SIGKILL"] ∧
    resolveTimeoutMs none = DEFAULT_COMMAND_TIMEOUT_MS ∧
    DEFAULT_COMMAND_TIMEOUT_MS = 5000 ∧
    (∀ t, t ≠ 0 → resolveTimeoutMs (some t) = t) := by
  have h1 : (spawnStep spawnInit SpawnEvent.timeout).resolved = true := by
    simp [spawnStep, spawnInit]
  have h2 : (spawnStep spawnInit SpawnEvent.timeout).timerActive = false := by
    simp [spawnStep, spawnInit]
  obtain ⟨w1, _, _, _, _, w6⟩ :=
    spawnFold_settled evs (spawnStep spawnInit SpawnEvent.timeout) h1 h2
  refine ⟨?_, ?_, rfl, rfl, ?_⟩
  · show ((SpawnEvent.timeout :: evs).foldl spawnStep spawnInit).result = _
    rw [List.foldl_cons, w1]
    simp [spawnStep, spawnInit]
  · show ((SpawnEvent.timeout :: evs).foldl spawnStep spawnInit).killSignals = _
    rw [List.foldl_cons, w6]
    simp [spawnStep, spawnInit]
  · intro t ht
    simp [resolveTimeoutMs, ht]

/-- Witness for C8 at the empty continuation and a concrete configured
timeout of 7000 ms. -/
theorem C8_timeout_transition_witness :
    (spawnRun [SpawnEvent.timeout]).killSignals = ["SIGKILL"] ∧
    resolveTimeoutMs (some 7000) = 7000 :=
  ⟨(C8_timeout_transition []).2.1,
   (C8_timeout_transition []).2.2.2.2 7000 (by decide)⟩

end Synpick
